import Mathlib

/-!
Shallow embedding of `infra_agent/providers/gl.py` (the merge-request
orchestration core of the infra-agent repository).

The remote GitLab service is modelled by an `Env` record: the recursive tree
listing of each branch, the file record returned for a `(file_path, ref)`
lookup, the merge-request record returned for an id, and whether each of the
three fallible write primitives (`branches.create`, `commits.create`,
`mergerequests.create`) raises during the run.  Every operation of the source
file is embedded as a pure function from an `Env` (plus its Python arguments)
to its result together with the ordered list of remote calls it issued.
-/

/-- One entry of a GitLab `repository_tree` listing; the source reads the
dict keys `path`, `name`, `size`, `id` and `mode` with `.get`, so every field
is optional. -/
structure TreeEntry where
  path : Option String
  name : Option String
  size : Option Int
  id : Option String
  mode : Option String
deriving DecidableEq, Repr

/-- The record python-gitlab returns from `project.files.get`; `content` holds
the already-decoded text the source obtains via `file.decode().decode("utf8")`. -/
structure RemoteFileRec where
  file_path : String
  file_name : String
  size : Option Int
  encoding : Option String
  content : String
  blob_id : Option String
  commit_id : Option String
  last_commit_id : Option String
  execute_filemode : Option Bool
deriving DecidableEq, Repr

/-- The record python-gitlab returns from `project.mergerequests.get`. -/
structure MergeRequestRec where
  id : Int
  title : String
  description : String
  state : String
  target_branch : String
  source_branch : String
deriving DecidableEq, Repr

/-- `GitlabFile` model from `infra_agent/models/gl.py`. -/
structure GitlabFile where
  file_path : String
  file_name : String
  size : Option Int
  encoding : Option String
  content : Option String
  ref : Option String
  blob_id : Option String
  commit_id : Option String
  last_commit_id : Option String
  execute_filemode : Option Bool
deriving DecidableEq, Repr

/-- `GitlabMergeRequest` model from `infra_agent/models/gl.py`. -/
structure GitlabMergeRequest where
  id : Option Int
  title : String
  state : String
  description : String
  target_branch : String
  source_branch : String
deriving DecidableEq, Repr

/-- One element of the `actions` list passed to `project.commits.create`. -/
structure CommitAction where
  action : String
  file_path : String
  content : String
deriving DecidableEq, Repr

/-- A remote call issued against the GitLab service, with the arguments the
source passes (optional arguments the source omits are `none` / absent). -/
inductive RemoteCall where
  | projectsGet (projectPath : String)
  | repositoryTree (path : String) (ref : String)
  | filesGet (filePath : String) (ref : String)
  | mergeRequestsGet (mrId : Int)
  | branchesCreate (branch : String) (ref : String)
  | commitsCreate (branch : String) (startBranch : Option String)
      (commitMessage : String) (author : Option (String × String))
      (actions : List CommitAction)
  | mergeRequestsCreate (sourceBranch : Option String) (targetBranch : String)
      (title : String) (description : String) (labels : Option String)
      (removeSourceBranch : Option Bool)
deriving DecidableEq, Repr

/-- `true` exactly on `commits.create` calls. -/
def RemoteCall.isCommitsCreate : RemoteCall → Bool
  | .commitsCreate _ _ _ _ _ => true
  | _ => false

/-- `true` exactly on `mergerequests.create` calls. -/
def RemoteCall.isMergeRequestsCreate : RemoteCall → Bool
  | .mergeRequestsCreate _ _ _ _ _ _ => true
  | _ => false

/-- The remote GitLab service as the embedded functions observe it during one
run: read endpoints are response functions, and each fallible write endpoint
either succeeds (`none`) or raises with the given message (`some msg`). -/
structure Env where
  reposTree : String → String → List TreeEntry
  filesGetRec : String → String → RemoteFileRec
  mrGet : Int → MergeRequestRec
  branchCreateError : Option String
  commitCreateError : Option String
  mrCreateError : Option String

/-- `settings.GITLAB_HELMFILE_PROJECT_PATH` (default value from
`infra_agent/settings.py`). -/
def GITLAB_HELMFILE_PROJECT_PATH : String := "test/helmfile"

/-- Python dict assignment `d[k] = v`: overwrite in place when the key is
present, else append, preserving insertion order. -/
def dictInsert {α : Type} (d : List (String × α)) (k : String) (v : α) :
    List (String × α) :=
  if k ∈ d.map Prod.fst then
    d.map (fun p => if p.1 = k then (k, v) else p)
  else d ++ [(k, v)]

/-- `list_files_in_branch(branch, path)` from `gl.py`: one `projects.get`,
one recursive `repository_tree`, and the listing mapped onto `GitlabFile`
records exactly as the source builds them. -/
def list_files_in_branch (env : Env) (branch : String) (path : String) :
    List GitlabFile × List RemoteCall :=
  let files := env.reposTree path branch
  (files.map (fun f =>
    { file_path := f.path.getD ""
      file_name := f.name.getD ""
      size := f.size
      encoding := none
      content := none
      ref := some branch
      blob_id := f.id
      commit_id := none
      last_commit_id := none
      execute_filemode := some (decide (f.mode = some "100755")) }),
   [RemoteCall.projectsGet GITLAB_HELMFILE_PROJECT_PATH,
    RemoteCall.repositoryTree path branch])

/-- `get_file_contents(branch, file_path)` from `gl.py`. -/
def get_file_contents (env : Env) (branch : String) (file_path : String) :
    GitlabFile × List RemoteCall :=
  let file := env.filesGetRec file_path branch
  ({ file_path := file.file_path
     file_name := file.file_name
     size := file.size
     encoding := file.encoding
     content := some file.content
     ref := some branch
     blob_id := file.blob_id
     commit_id := file.commit_id
     last_commit_id := file.last_commit_id
     execute_filemode := file.execute_filemode },
   [RemoteCall.projectsGet GITLAB_HELMFILE_PROJECT_PATH,
    RemoteCall.filesGet file_path branch])

/-- `get_merge_request_details(mr_id)` from `gl.py`. -/
def get_merge_request_details (env : Env) (mr_id : Int) :
    GitlabMergeRequest × List RemoteCall :=
  let mr := env.mrGet mr_id
  ({ id := some mr.id
     title := mr.title
     state := mr.state
     description := mr.description
     target_branch := mr.target_branch
     source_branch := mr.source_branch },
   [RemoteCall.projectsGet GITLAB_HELMFILE_PROJECT_PATH,
    RemoteCall.mergeRequestsGet mr_id])

/-- `list_files_in_merge_request(merge_request_id)` from `gl.py`.  Note the
source calls `get_file_contents(mr.source_branch)` inside the loop WITHOUT
passing `f.file_path`, so the Python default `file_path=""` applies to every
iteration; the embedding reproduces that call as written. -/
def list_files_in_merge_request (env : Env) (merge_request_id : Int) :
    List (String × Option String) × List RemoteCall :=
  let mrR := get_merge_request_details env merge_request_id
  let lfR := list_files_in_branch env mrR.1.source_branch ""
  let step := lfR.1.foldl
    (fun acc f =>
      let gfR := get_file_contents env mrR.1.source_branch ""
      (dictInsert acc.1 f.file_path gfR.1.content, acc.2 ++ gfR.2))
    (([] : List (String × Option String)), ([] : List RemoteCall))
  (step.1, mrR.2 ++ lfR.2 ++ step.2)

/-- The `inputs` dict every raise site of `create_merge_request` builds: the
five parameters of the call, echoed in full. -/
structure CreateMergeRequestInputs where
  merge_request_branch : String
  commit_message : String
  title : String
  description : String
  files_updated : List (String × String)
deriving DecidableEq, Repr

/-- Modelled from the spec: `PromptToolError` lives in
`infra_agent/models/generic.py`, which is not among the provided sources; its
constructor signature `(message, tool_name, inputs)` is taken from the three
raise sites in `gl.py`, matching the spec's requirement that every error
identifies the operation attempted and echoes the full input that produced
it.  `inputs` is typed with the one payload shape used in scope. -/
structure PromptToolError where
  message : String
  tool_name : String
  inputs : CreateMergeRequestInputs
deriving DecidableEq, Repr

/-- The literal message of the empty-input raise in `create_merge_request`. -/
def validationMessage : String :=
  "Missing or empty `file_contents` parameter! you MUST provide map of filepath/filecontents here!"

/-- `f"Problem creating commit! {e}"` from the commit-stage handler. -/
def commitStageMessage (e : String) : String :=
  "Problem creating commit! " ++ e

/-- `f"Problem creating merge request from commit! {e}"` from the MR-stage
handler. -/
def mrStageMessage (e : String) : String :=
  "Problem creating merge request from commit! " ++ e

/-- Line 137 of `gl.py`: `[f.file_path for f in await list_files_in_branch("main")]`. -/
def oneShotExisting (env : Env) : List String :=
  (list_files_in_branch env "main" "").1.map (fun f => f.file_path)

/-- The `commit_actions` list the one-shot `create_merge_request` builds from
`files_updated`: one action per entry, `update` when the path occurs in the
`main` listing fetched just before, else `create`. -/
def oneShotActions (env : Env) (files_updated : List (String × String)) :
    List CommitAction :=
  files_updated.map (fun pc =>
    { action := if pc.1 ∈ oneShotExisting env then "update" else "create"
      file_path := pc.1
      content := pc.2 })

/-- The module-level one-shot `create_merge_request` from `gl.py`:
empty-input validation, `projects.get`, listing of `main` (via
`list_files_in_branch`), classification, one `commits.create` (wrapped, on
failure re-raised as a commit-stage `PromptToolError`), then one
`mergerequests.create` with labels `"ai,automerge"` (wrapped likewise). -/
def create_merge_request (env : Env)
    (merge_request_branch commit_message title description : String)
    (files_updated : List (String × String)) :
    Except PromptToolError Unit × List RemoteCall :=
  let inputs : CreateMergeRequestInputs :=
    ⟨merge_request_branch, commit_message, title, description, files_updated⟩
  if files_updated.isEmpty then
    (.error ⟨validationMessage, "create_merge_request", inputs⟩, [])
  else
    let mr_target_branch_name := "main"
    let baseTrace := RemoteCall.projectsGet GITLAB_HELMFILE_PROJECT_PATH ::
      (list_files_in_branch env "main" "").2
    let commitCall := RemoteCall.commitsCreate merge_request_branch
      (some mr_target_branch_name) commit_message (some ("ai", "ai"))
      (oneShotActions env files_updated)
    match env.commitCreateError with
    | some e =>
        (.error ⟨commitStageMessage e, "create_merge_request", inputs⟩,
         baseTrace ++ [commitCall])
    | none =>
        let mrCall := RemoteCall.mergeRequestsCreate (some merge_request_branch)
          mr_target_branch_name title description (some "ai,automerge") none
        match env.mrCreateError with
        | some e =>
            (.error ⟨mrStageMessage e, "create_merge_request", inputs⟩,
             baseTrace ++ [commitCall, mrCall])
        | none => (.ok (), baseTrace ++ [commitCall, mrCall])

/-- The mutable state of a `GitlabMergeRequestFactory` instance:
`_source_branch`, `_mr_branch` and the `_files` dict (insertion-ordered). -/
structure GitlabMergeRequestFactory where
  source_branch : String
  mr_branch : Option String
  files : List (String × String)
deriving DecidableEq, Repr

/-- `GitlabMergeRequestFactory.__init__`: fresh state plus the one remote
call (`projects.get`) the constructor performs. -/
def GitlabMergeRequestFactory.init : GitlabMergeRequestFactory × List RemoteCall :=
  (⟨"main", none, []⟩, [RemoteCall.projectsGet GITLAB_HELMFILE_PROJECT_PATH])

/-- `add_file_to_merge_request`: `self._files[file_path] = file_contents`. -/
def GitlabMergeRequestFactory.add_file_to_merge_request
    (s : GitlabMergeRequestFactory) (file_path file_contents : String) :
    GitlabMergeRequestFactory :=
  { s with files := dictInsert s.files file_path file_contents }

/-- The `existing_files` accumulation loop of `create_commit_in_branch`:
append each entry's `path` when it is set, non-empty (Python truthiness of
`if path`) and not yet collected. -/
def collectPaths (acc : List String) : List TreeEntry → List String
  | [] => acc
  | f :: rest =>
      match f.path with
      | some p => collectPaths (if p ≠ "" ∧ p ∉ acc then acc ++ [p] else acc) rest
      | none => collectPaths acc rest

/-- `create_commit_in_branch(branch_name, commit_message)`: attempt
`branches.create` (ANY exception is swallowed and flips `new_branch` off),
list the source branch's tree, additionally the target branch's tree when
`new_branch` is off, classify the pending `_files` against the collected
paths, and submit one `commits.create` (unwrapped: a failure there
propagates as the raw exception message); on success record `_mr_branch`. -/
def GitlabMergeRequestFactory.create_commit_in_branch (env : Env)
    (s : GitlabMergeRequestFactory) (branch_name commit_message : String) :
    Except String GitlabMergeRequestFactory × List RemoteCall :=
  let branchCall := RemoteCall.branchesCreate branch_name s.source_branch
  let new_branch := env.branchCreateError.isNone
  let ef0 := collectPaths [] (env.reposTree "" s.source_branch)
  let existing_files :=
    if new_branch then ef0
    else collectPaths ef0 (env.reposTree "" branch_name)
  let treeTrace :=
    if new_branch then [RemoteCall.repositoryTree "" s.source_branch]
    else [RemoteCall.repositoryTree "" s.source_branch,
          RemoteCall.repositoryTree "" branch_name]
  let commit_actions := s.files.map (fun pc =>
    ({ action := if pc.1 ∈ existing_files then "update" else "create"
       file_path := pc.1
       content := pc.2 } : CommitAction))
  let commitCall := RemoteCall.commitsCreate branch_name none commit_message
    none commit_actions
  match env.commitCreateError with
  | some e => (.error e, branchCall :: treeTrace ++ [commitCall])
  | none =>
      (.ok { s with mr_branch := some branch_name },
       branchCall :: treeTrace ++ [commitCall])

/-- `GitlabMergeRequestFactory.create_merge_request(title, description)`:
one `mergerequests.create` with `source_branch = self._mr_branch`,
`target_branch = self._source_branch`, `remove_source_branch = True`, and no
labels; no local state guard, a remote failure propagates raw. -/
def GitlabMergeRequestFactory.create_merge_request (env : Env)
    (s : GitlabMergeRequestFactory) (title description : String) :
    Except String Unit × List RemoteCall :=
  let mrCall := RemoteCall.mergeRequestsCreate s.mr_branch s.source_branch
    title description none (some true)
  match env.mrCreateError with
  | some e => (.error e, [mrCall])
  | none => (.ok (), [mrCall])

/-- The paths actually present in a tree listing (entries with a `path`). -/
def treePaths (entries : List TreeEntry) : List String :=
  entries.filterMap TreeEntry.path

/-- A non-empty path is collected by the `existing_files` loop exactly when it
was already collected or occurs among the listing's paths. -/
theorem mem_collectPaths {k : String} (hk : k ≠ "") (entries : List TreeEntry)
    (acc : List String) :
    k ∈ collectPaths acc entries ↔ k ∈ acc ∨ k ∈ treePaths entries := by
  induction entries generalizing acc with
  | nil => simp [collectPaths, treePaths]
  | cons a l ih =>
    cases hpa : a.path with
    | none => simp [collectPaths, hpa, ih, treePaths]
    | some p =>
      by_cases hp : p ≠ "" ∧ p ∉ acc
      · simp only [collectPaths, hpa, if_pos hp, ih, treePaths, List.filterMap_cons,
          List.mem_append, List.mem_cons, List.mem_singleton]
        tauto
      · have hmem : k = p → k ∈ acc := by
          intro hkp
          subst hkp
          rcases not_and_or.mp hp with h1 | h2
          · exact absurd (not_not.mp h1) hk
          · exact not_not.mp h2
        simp only [collectPaths, hpa, if_neg hp, ih, treePaths, List.filterMap_cons,
          List.mem_cons]
        constructor
        · intro h; rcases h with h | h
          · exact Or.inl h
          · exact Or.inr (Or.inr h)
        · intro h; rcases h with h | h | h
          · exact Or.inl h
          · exact Or.inl (hmem h)
          · exact Or.inr h

/-- When every entry of a listing carries a `path`, the `f.get("path", "")`
defaulting of `list_files_in_branch` yields exactly the listing's paths. -/
theorem map_getD_eq_treePaths (l : List TreeEntry)
    (h : ∀ e ∈ l, (TreeEntry.path e).isSome) :
    l.map (fun f => f.path.getD "") = treePaths l := by
  induction l with
  | nil => rfl
  | cons a l ih =>
    obtain ⟨p, hp⟩ := Option.isSome_iff_exists.mp (h a (List.mem_cons_self a l))
    have ih' := ih (fun e he => h e (List.mem_cons_of_mem a he))
    simp only [List.map_cons, treePaths, List.filterMap_cons, hp, Option.getD_some]
    rw [treePaths] at ih'
    exact congrArg (List.cons p) ih'

/-- The commit-stage and MR-stage error messages never coincide, whatever the
wrapped exception texts are: the two stages are distinguishable. -/
theorem mrStageMessage_ne_commitStageMessage (e1 e2 : String) :
    mrStageMessage e1 ≠ commitStageMessage e2 := by
  intro h
  have h' : (mrStageMessage e1).data.take 25 = (commitStageMessage e2).data.take 25 := by
    rw [h]
  rw [mrStageMessage, commitStageMessage, String.data_append, String.data_append] at h'
  rw [List.take_append_of_le_length (by decide),
      List.take_append_of_le_length (by decide)] at h'
  exact absurd h' (by decide)

/-- The `existing_files` list the one-shot path computes is exactly the
`main` listing's paths, provided every tree entry carries a `path`. -/
theorem oneShotExisting_eq_treePaths (env : Env)
    (hpaths : ∀ e ∈ env.reposTree "" "main", (TreeEntry.path e).isSome) :
    oneShotExisting env = treePaths (env.reposTree "" "main") := by
  rw [oneShotExisting, list_files_in_branch]
  simp only [List.map_map]
  exact map_getD_eq_treePaths _ hpaths

/-- C1: for every non-empty `files_updated` map, the one-shot
`create_merge_request` issues exactly one `commits.create` remote call, whose
action list holds exactly one action per key of `files_updated`, labeled
`update` when that path is present in the `main` tree listing fetched before
the call and `create` otherwise (assuming, as GitLab guarantees, that every
tree entry carries a `path`). -/
theorem create_merge_request_one_commit_call
    (env : Env) (mrb cm t d : String) (fu : List (String × String))
    (hfu : fu ≠ [])
    (hpaths : ∀ e ∈ env.reposTree "" "main", (TreeEntry.path e).isSome) :
    (create_merge_request env mrb cm t d fu).2.filter RemoteCall.isCommitsCreate
      = [RemoteCall.commitsCreate mrb (some "main") cm (some ("ai", "ai"))
          (fu.map (fun pc =>
            { action := if pc.1 ∈ treePaths (env.reposTree "" "main")
                        then "update" else "create"
              file_path := pc.1
              content := pc.2 }))] := by
  have hact : oneShotActions env fu
      = fu.map (fun pc =>
          ({ action := if pc.1 ∈ treePaths (env.reposTree "" "main")
                       then "update" else "create"
             file_path := pc.1
             content := pc.2 } : CommitAction)) := by
    rw [oneShotActions, oneShotExisting_eq_treePaths env hpaths]
  rw [create_merge_request]
  rw [if_neg (by simp [hfu])]
  cases hce : env.commitCreateError with
  | some e =>
      simp [list_files_in_branch, List.filter, RemoteCall.isCommitsCreate, hact]
  | none =>
      cases hme : env.mrCreateError with
      | some e =>
          simp [list_files_in_branch, List.filter, RemoteCall.isCommitsCreate, hact]
      | none =>
          simp [list_files_in_branch, List.filter, RemoteCall.isCommitsCreate, hact]

/-- A concrete healthy remote: `main` tracks `values.yaml`, the working branch
`fix-branch` tracks `old.txt`, file lookups answer with path-tagged content,
and all three write primitives succeed. -/
def envMain : Env :=
  { reposTree := fun _ ref =>
      if ref = "main" then
        [⟨some "values.yaml", some "values.yaml", none, some "b1", some "100644"⟩]
      else if ref = "fix-branch" then
        [⟨some "old.txt", some "old.txt", none, some "b2", some "100644"⟩]
      else []
    filesGetRec := fun fp _ => ⟨fp, fp, none, some "base64", "C-" ++ fp, none, none, none, none⟩
    mrGet := fun i => ⟨i, "t", "d", "opened", "main", "fix-branch"⟩
    branchCreateError := none
    commitCreateError := none
    mrCreateError := none }

/-- Witness for C1 at a concrete input: one existing and one new path. -/
theorem create_merge_request_one_commit_call_witness :
    (create_merge_request envMain "fix-branch" "bump" "T" "D"
        [("values.yaml", "v"), ("new.yaml", "n")]).2.filter RemoteCall.isCommitsCreate
      = [RemoteCall.commitsCreate "fix-branch" (some "main") "bump" (some ("ai", "ai"))
          [⟨"update", "values.yaml", "v"⟩, ⟨"create", "new.yaml", "n"⟩]] := by
  have h := create_merge_request_one_commit_call envMain "fix-branch" "bump" "T" "D"
    [("values.yaml", "v"), ("new.yaml", "n")] (by decide) (by decide)
  simpa [envMain, treePaths] using h

/-- C2: every commit submitted by `create_commit_in_branch` carries exactly
one action per key of the pending `_files` dict, labeled `update` iff the
path occurs in the union of the baseline branch's recursive tree and — only
when branch creation did not succeed — the working branch's own recursive
tree, else `create` (for non-empty path keys; the loop's Python truthiness
test skips empty paths). -/
theorem create_commit_in_branch_actions_cover
    (env : Env) (s : GitlabMergeRequestFactory) (bn cm : String)
    (hkeys : ∀ pc ∈ s.files, (Prod.fst pc) ≠ "") :
    (GitlabMergeRequestFactory.create_commit_in_branch env s bn cm).2.filter
        RemoteCall.isCommitsCreate
      = [RemoteCall.commitsCreate bn none cm none
          (s.files.map (fun pc =>
            { action := if pc.1 ∈ treePaths (env.reposTree "" s.source_branch)
                    ++ (if env.branchCreateError.isSome
                        then treePaths (env.reposTree "" bn) else [])
                then "update" else "create"
              file_path := pc.1
              content := pc.2 }))] := by
  rw [GitlabMergeRequestFactory.create_commit_in_branch]
  cases hb : env.branchCreateError with
  | none =>
      have hacts : s.files.map (fun pc =>
            ({ action := if pc.1 ∈ collectPaths [] (env.reposTree "" s.source_branch)
                then "update" else "create"
               file_path := pc.1
               content := pc.2 } : CommitAction))
          = s.files.map (fun pc =>
              ({ action := if pc.1 ∈ treePaths (env.reposTree "" s.source_branch)
                      ++ ([] : List String)
                  then "update" else "create"
                 file_path := pc.1
                 content := pc.2 } : CommitAction)) := by
        apply List.map_congr_left
        intro pc hpc
        rw [CommitAction.mk.injEq]
        refine ⟨if_congr ?_ rfl rfl, rfl, rfl⟩
        rw [mem_collectPaths (hkeys pc hpc)]
        simp
      cases hce : env.commitCreateError with
      | some e =>
          exact congrArg (fun acts => [RemoteCall.commitsCreate bn none cm none acts]) hacts
      | none =>
          exact congrArg (fun acts => [RemoteCall.commitsCreate bn none cm none acts]) hacts
  | some ebr =>
      have hacts : s.files.map (fun pc =>
            ({ action := if pc.1 ∈ collectPaths
                    (collectPaths [] (env.reposTree "" s.source_branch))
                    (env.reposTree "" bn)
                then "update" else "create"
               file_path := pc.1
               content := pc.2 } : CommitAction))
          = s.files.map (fun pc =>
              ({ action := if pc.1 ∈ treePaths (env.reposTree "" s.source_branch)
                      ++ treePaths (env.reposTree "" bn)
                  then "update" else "create"
                 file_path := pc.1
                 content := pc.2 } : CommitAction)) := by
        apply List.map_congr_left
        intro pc hpc
        rw [CommitAction.mk.injEq]
        refine ⟨if_congr ?_ rfl rfl, rfl, rfl⟩
        rw [mem_collectPaths (hkeys pc hpc), mem_collectPaths (hkeys pc hpc)]
        simp [List.mem_append]
      cases hce : env.commitCreateError with
      | some e =>
          exact congrArg (fun acts => [RemoteCall.commitsCreate bn none cm none acts]) hacts
      | none =>
          exact congrArg (fun acts => [RemoteCall.commitsCreate bn none cm none acts]) hacts

/-- The remote of `envMain`, except that the working branch already exists:
`branches.create` raises GitLab's already-exists rejection. -/
def envBranchExists : Env :=
  { envMain with branchCreateError := some "400 Branch already exists" }

/-- Witness for C2 at a concrete input: the working branch pre-existed, one
path from the baseline tree, one only from the working branch's tree, one
new. -/
theorem create_commit_in_branch_actions_cover_witness :
    (GitlabMergeRequestFactory.create_commit_in_branch envBranchExists
        ⟨"main", none, [("values.yaml", "v"), ("old.txt", "o"), ("new.yaml", "n")]⟩
        "fix-branch" "msg").2.filter RemoteCall.isCommitsCreate
      = [RemoteCall.commitsCreate "fix-branch" none "msg" none
          [⟨"update", "values.yaml", "v"⟩, ⟨"update", "old.txt", "o"⟩,
           ⟨"create", "new.yaml", "n"⟩]] := by
  have h := create_commit_in_branch_actions_cover envBranchExists
    ⟨"main", none, [("values.yaml", "v"), ("old.txt", "o"), ("new.yaml", "n")]⟩
    "fix-branch" "msg" (by decide)
  exact h

/-- C3: the one-shot `create_merge_request` with an empty `files_updated`
map fails with the validation `PromptToolError` naming the
`create_merge_request` tool and echoing the full input, and issues zero
remote calls. -/
theorem create_merge_request_empty_validation
    (env : Env) (mrb cm t d : String) :
    create_merge_request env mrb cm t d []
      = (.error ⟨validationMessage, "create_merge_request", ⟨mrb, cm, t, d, []⟩⟩,
         ([] : List RemoteCall)) := rfl

/-- C4: when the commit succeeds and `mergerequests.create` then fails, the
one-shot `create_merge_request` surfaces the MR-stage `PromptToolError`
(echoing the full input), the already-issued `commits.create` call stays in
the trace with nothing issued after the failed MR call (no rollback), and
the MR-stage message can never coincide with a commit-stage message. -/
theorem create_merge_request_mr_stage_error
    (env : Env) (mrb cm t d : String) (fu : List (String × String)) (e : String)
    (hfu : fu ≠ []) (hc : env.commitCreateError = none)
    (hm : env.mrCreateError = some e) :
    ((create_merge_request env mrb cm t d fu).1
        = .error ⟨mrStageMessage e, "create_merge_request", ⟨mrb, cm, t, d, fu⟩⟩)
    ∧ ((create_merge_request env mrb cm t d fu).2
        = [RemoteCall.projectsGet GITLAB_HELMFILE_PROJECT_PATH,
           RemoteCall.projectsGet GITLAB_HELMFILE_PROJECT_PATH,
           RemoteCall.repositoryTree "" "main",
           RemoteCall.commitsCreate mrb (some "main") cm (some ("ai", "ai"))
             (oneShotActions env fu),
           RemoteCall.mergeRequestsCreate (some mrb) "main" t d
             (some "ai,automerge") none])
    ∧ (∀ e2, mrStageMessage e ≠ commitStageMessage e2) := by
  refine ⟨?_, ?_, fun e2 => mrStageMessage_ne_commitStageMessage e e2⟩
  · rw [create_merge_request, if_neg (by simp [hfu]), hc, hm]
  · rw [create_merge_request, if_neg (by simp [hfu]), hc, hm]
    rfl

/-- The remote of `envMain`, except that `mergerequests.create` fails. -/
def envMrFails : Env :=
  { envMain with mrCreateError := some "503 service unavailable" }

/-- Witness for C4 at a concrete input. -/
theorem create_merge_request_mr_stage_error_witness :
    ((create_merge_request envMrFails "fix-branch" "bump" "T" "D"
        [("values.yaml", "v")]).1
        = .error ⟨mrStageMessage "503 service unavailable", "create_merge_request",
            ⟨"fix-branch", "bump", "T", "D", [("values.yaml", "v")]⟩⟩)
    ∧ ((create_merge_request envMrFails "fix-branch" "bump" "T" "D"
        [("values.yaml", "v")]).2
        = [RemoteCall.projectsGet GITLAB_HELMFILE_PROJECT_PATH,
           RemoteCall.projectsGet GITLAB_HELMFILE_PROJECT_PATH,
           RemoteCall.repositoryTree "" "main",
           RemoteCall.commitsCreate "fix-branch" (some "main") "bump"
             (some ("ai", "ai")) (oneShotActions envMrFails [("values.yaml", "v")]),
           RemoteCall.mergeRequestsCreate (some "fix-branch") "main" "T" "D"
             (some "ai,automerge") none])
    ∧ (∀ e2, mrStageMessage "503 service unavailable" ≠ commitStageMessage e2) :=
  create_merge_request_mr_stage_error envMrFails "fix-branch" "bump" "T" "D"
    [("values.yaml", "v")] "503 service unavailable" (by decide) rfl rfl

/-- C5: when `commits.create` raises, the one-shot `create_merge_request`
surfaces the commit-stage `PromptToolError` naming the tool and echoing the
full input, and no `mergerequests.create` call appears in the trace. -/
theorem create_merge_request_commit_stage_error
    (env : Env) (mrb cm t d : String) (fu : List (String × String)) (e : String)
    (hfu : fu ≠ []) (hc : env.commitCreateError = some e) :
    ((create_merge_request env mrb cm t d fu).1
        = .error ⟨commitStageMessage e, "create_merge_request", ⟨mrb, cm, t, d, fu⟩⟩)
    ∧ (∀ c ∈ (create_merge_request env mrb cm t d fu).2,
        c.isMergeRequestsCreate = false) := by
  constructor
  · rw [create_merge_request, if_neg (by simp [hfu]), hc]
  · rw [create_merge_request, if_neg (by simp [hfu]), hc]
    simp [list_files_in_branch, RemoteCall.isMergeRequestsCreate]

/-- The remote of `envMain`, except that `commits.create` fails. -/
def envCommitFails : Env :=
  { envMain with commitCreateError := some "422 unprocessable" }

/-- Witness for C5 at a concrete input. -/
theorem create_merge_request_commit_stage_error_witness :
    ((create_merge_request envCommitFails "fix-branch" "bump" "T" "D"
        [("values.yaml", "v")]).1
        = .error ⟨commitStageMessage "422 unprocessable", "create_merge_request",
            ⟨"fix-branch", "bump", "T", "D", [("values.yaml", "v")]⟩⟩)
    ∧ (∀ c ∈ (create_merge_request envCommitFails "fix-branch" "bump" "T" "D"
        [("values.yaml", "v")]).2, c.isMergeRequestsCreate = false) :=
  create_merge_request_commit_stage_error envCommitFails "fix-branch" "bump" "T" "D"
    [("values.yaml", "v")] "422 unprocessable" (by decide) rfl

/-- `true` exactly on `files.get` calls. -/
def RemoteCall.isFilesGet : RemoteCall → Bool
  | .filesGet _ _ => true
  | _ => false

/-- The remote of `envMain`, except that `branches.create` fails with an
error that is NOT branch-already-exists. -/
def envBranchServerError : Env :=
  { envMain with branchCreateError := some "500 internal server error" }

/-- C6, code behavior at the failing input: a `branches.create` failure
unrelated to the branch already existing (an internal server error) is
swallowed by `create_commit_in_branch` exactly like a conflict — the
workflow proceeds, lists both trees, submits the commit and succeeds —
instead of the failure being fatal to the commit step. -/
theorem create_commit_in_branch_swallows_branch_failure :
    GitlabMergeRequestFactory.create_commit_in_branch envBranchServerError
        ⟨"main", none, [("new.yaml", "n")]⟩ "fix-branch" "msg"
      = (.ok ⟨"main", some "fix-branch", [("new.yaml", "n")]⟩,
         [RemoteCall.branchesCreate "fix-branch" "main",
          RemoteCall.repositoryTree "" "main",
          RemoteCall.repositoryTree "" "fix-branch",
          RemoteCall.commitsCreate "fix-branch" none "msg" none
            [⟨"create", "new.yaml", "n"⟩]]) := rfl

/-- A remote whose merge request 7 has source branch `fix-branch` tracking
`a.txt` and `b.txt`; a file lookup at `(fp, ref)` answers with content
`"C-" ++ fp`, so the file at the empty path has content `"C-"`. -/
def envTwoFiles : Env :=
  { envMain with
      reposTree := fun _ ref =>
        if ref = "fix-branch" then
          [⟨some "a.txt", some "a.txt", none, some "b1", some "100644"⟩,
           ⟨some "b.txt", some "b.txt", none, some "b2", some "100644"⟩]
        else [] }

/-- C7, code behavior at the failing input: `list_files_in_merge_request`
maps every tracked path to the content fetched at the EMPTY path (the Python
default, since the source omits `f.file_path` in the loop's
`get_file_contents` call), not to each file's own content; both `files.get`
calls in the trace request the empty path. -/
theorem list_files_in_merge_request_fetches_empty_path :
    ((list_files_in_merge_request envTwoFiles 7).1
        = [("a.txt", some "C-"), ("b.txt", some "C-")])
    ∧ ((list_files_in_merge_request envTwoFiles 7).1
        ≠ [("a.txt", some "C-a.txt"), ("b.txt", some "C-b.txt")])
    ∧ ((list_files_in_merge_request envTwoFiles 7).2.filter RemoteCall.isFilesGet
        = [RemoteCall.filesGet "" "fix-branch", RemoteCall.filesGet "" "fix-branch"]) := by
  refine ⟨rfl, by decide, rfl⟩

/-- C8, counterexample: with an empty pending edit set
`create_commit_in_branch` does not fail with a validation error — it
succeeds and submits a commit whose action list is empty. -/
theorem create_commit_in_branch_empty_submits_commit :
    GitlabMergeRequestFactory.create_commit_in_branch envMain
        ⟨"main", none, []⟩ "fix-branch" "msg"
      = (.ok ⟨"main", some "fix-branch", []⟩,
         [RemoteCall.branchesCreate "fix-branch" "main",
          RemoteCall.repositoryTree "" "main",
          RemoteCall.commitsCreate "fix-branch" none "msg" none []]) := rfl

/-- C8, amended: calling `create_commit_in_branch` with an empty pending
edit set performs no local validation: it submits a commit with an empty
action list, and the only possible failure is the remote `commits.create`
rejection. -/
theorem create_commit_in_branch_empty_files_no_validation
    (env : Env) (s : GitlabMergeRequestFactory) (bn cm : String)
    (hs : s.files = []) :
    ((GitlabMergeRequestFactory.create_commit_in_branch env s bn cm).2.filter
        RemoteCall.isCommitsCreate
      = [RemoteCall.commitsCreate bn none cm none []])
    ∧ (∀ e, (GitlabMergeRequestFactory.create_commit_in_branch env s bn cm).1
          = .error e → env.commitCreateError = some e) := by
  constructor
  · rw [GitlabMergeRequestFactory.create_commit_in_branch, hs]
    cases hb : env.branchCreateError with
    | none =>
        cases hce : env.commitCreateError with
        | some e => rfl
        | none => rfl
    | some e2 =>
        cases hce : env.commitCreateError with
        | some e => rfl
        | none => rfl
  · intro e he
    rw [GitlabMergeRequestFactory.create_commit_in_branch] at he
    cases hce : env.commitCreateError with
    | some e3 =>
        rw [hce] at he
        simp at he
        rw [he]
    | none =>
        rw [hce] at he
        simp at he

/-- Witness for amended C8 at a concrete input. -/
theorem create_commit_in_branch_empty_files_no_validation_witness :
    ((GitlabMergeRequestFactory.create_commit_in_branch envMain
        ⟨"main", none, []⟩ "fix-branch" "msg").2.filter RemoteCall.isCommitsCreate
      = [RemoteCall.commitsCreate "fix-branch" none "msg" none []])
    ∧ (∀ e, (GitlabMergeRequestFactory.create_commit_in_branch envMain
          ⟨"main", none, []⟩ "fix-branch" "msg").1
          = .error e → envMain.commitCreateError = some e) :=
  create_commit_in_branch_empty_files_no_validation envMain
    ⟨"main", none, []⟩ "fix-branch" "msg" rfl

/-- C9, counterexample: on a fresh factory (no commit made, `_mr_branch`
still `None`) `create_merge_request` does not fail with an invalid-state
error and does make a remote call: it succeeds, issuing one
`mergerequests.create` with a null source branch. -/
theorem create_merge_request_fresh_no_guard :
    GitlabMergeRequestFactory.create_merge_request envMain
        GitlabMergeRequestFactory.init.1 "T" "D"
      = (.ok (), [RemoteCall.mergeRequestsCreate none "main" "T" "D"
          none (some true)]) := rfl

/-- C9, amended: with `_mr_branch` unset the factory's
`create_merge_request` performs no local state check: it issues exactly one
`mergerequests.create` remote call with source branch `None`, and the only
possible failure is the remote rejection of that call. -/
theorem create_merge_request_fresh_issues_call
    (env : Env) (s : GitlabMergeRequestFactory) (t d : String)
    (hs : s.mr_branch = none) :
    ((GitlabMergeRequestFactory.create_merge_request env s t d).2
        = [RemoteCall.mergeRequestsCreate none s.source_branch t d none (some true)])
    ∧ (∀ e, (GitlabMergeRequestFactory.create_merge_request env s t d).1 = .error e
          → env.mrCreateError = some e) := by
  constructor
  · rw [GitlabMergeRequestFactory.create_merge_request, hs]
    cases hme : env.mrCreateError with
    | some e => rfl
    | none => rfl
  · intro e he
    rw [GitlabMergeRequestFactory.create_merge_request] at he
    cases hme : env.mrCreateError with
    | some e2 =>
        rw [hme] at he
        simp at he
        rw [he]
    | none =>
        rw [hme] at he
        simp at he

/-- Witness for amended C9 at a concrete input. -/
theorem create_merge_request_fresh_issues_call_witness :
    ((GitlabMergeRequestFactory.create_merge_request envMain
        GitlabMergeRequestFactory.init.1 "T" "D").2
        = [RemoteCall.mergeRequestsCreate none "main" "T" "D" none (some true)])
    ∧ (∀ e, (GitlabMergeRequestFactory.create_merge_request envMain
          GitlabMergeRequestFactory.init.1 "T" "D").1 = .error e
          → envMain.mrCreateError = some e) :=
  create_merge_request_fresh_issues_call envMain
    GitlabMergeRequestFactory.init.1 "T" "D" rfl

/-- C10, counterexample: after a successful commit on `fix-branch`, the
factory's `create_merge_request` issues its MR-creation call with the right
source and target branches but with NO labels (the `labels` argument is
absent), so the created merge request carries no `"ai"`/`"automerge"`
provenance labels. -/
theorem create_merge_request_after_commit_unlabeled :
    ((GitlabMergeRequestFactory.create_commit_in_branch envMain
        ⟨"main", none, [("values.yaml", "v")]⟩ "fix-branch" "msg").1
      = .ok ⟨"main", some "fix-branch", [("values.yaml", "v")]⟩)
    ∧ ((GitlabMergeRequestFactory.create_merge_request envMain
        ⟨"main", some "fix-branch", [("values.yaml", "v")]⟩ "T" "D").2
      = [RemoteCall.mergeRequestsCreate (some "fix-branch") "main" "T" "D"
          none (some true)]) := ⟨rfl, rfl⟩

/-- C10, amended: after a successful `create_commit_in_branch` on branch
`bn`, the factory's `create_merge_request` issues exactly one MR-creation
call with `source_branch` equal to the recorded working branch `bn`,
`target_branch` equal to the configured baseline, `remove_source_branch`
set, and no labels. -/
theorem create_merge_request_after_commit_branches
    (env env2 : Env) (s s2 : GitlabMergeRequestFactory) (bn cm t d : String)
    (h : (GitlabMergeRequestFactory.create_commit_in_branch env s bn cm).1 = .ok s2) :
    (GitlabMergeRequestFactory.create_merge_request env2 s2 t d).2
      = [RemoteCall.mergeRequestsCreate (some bn) s.source_branch t d
          none (some true)] := by
  have hs2 : s2 = { s with mr_branch := some bn } := by
    rw [GitlabMergeRequestFactory.create_commit_in_branch] at h
    cases hce : env.commitCreateError with
    | some e =>
        rw [hce] at h
        simp at h
    | none =>
        rw [hce] at h
        simp at h
        exact h.symm
  subst hs2
  rw [GitlabMergeRequestFactory.create_merge_request]
  cases hme : env2.mrCreateError with
  | some e => rfl
  | none => rfl

/-- Witness for amended C10 at a concrete input. -/
theorem create_merge_request_after_commit_branches_witness :
    (GitlabMergeRequestFactory.create_merge_request envMain
        ⟨"main", some "fix-branch", [("values.yaml", "v")]⟩ "T" "D").2
      = [RemoteCall.mergeRequestsCreate (some "fix-branch") "main" "T" "D"
          none (some true)] :=
  create_merge_request_after_commit_branches envMain envMain
    ⟨"main", none, [("values.yaml", "v")]⟩
    ⟨"main", some "fix-branch", [("values.yaml", "v")]⟩
    "fix-branch" "msg" "T" "D" rfl
